import Mathlib

/-!
Verification development for the AirBnB-clone object store
(`models/engine/file_storage.py`) and its command layer
(`console_commands.py`).

The Python code is shallowly embedded: objects are records of named
primitive values, the registry state is an association list keyed by
`"Kind.id"` strings together with the persisted JSON document, and every
registry operation is a pure function returning the possibly-raised
exception, the new state, and the list of printed lines.  Python
`datetime` values are represented by their canonical ISO-8601 string
(the embedding works "modulo timestamp string formatting", as the spec
puts it), so serializing a timestamp is the identity on that string.
-/

namespace AirBnBClone

/-- Python exceptions that can escape the embedded operations. -/
inductive PyErr where
  | valueError
  | typeError
  | attributeError
  deriving DecidableEq

/-- The Python runtime types that occur as attribute values here. -/
inductive PyType where
  | tnone
  | tbool
  | tint
  | tstr
  | tdatetime
  | tcallable
  deriving DecidableEq, BEq

/-- Python primitive values stored in object attributes.  A `datetime`
is carried as its ISO-8601 string; a callable attribute (a bound
method) is carried by its name. -/
inductive PyVal where
  | vnone
  | vbool (b : Bool)
  | vint (n : Int)
  | vstr (s : String)
  | vdatetime (iso : String)
  | vcallable (name : String)
  deriving DecidableEq

/-- Python truthiness (`bool(v)`): `None`, `False`, `0` and `""` are
falsy, everything else here is truthy. -/
def pyTruthy : PyVal → Bool
  | .vnone => false
  | .vbool b => b
  | .vint n => n != 0
  | .vstr s => s != ""
  | .vdatetime _ => true
  | .vcallable _ => true

/-- `type(v)` for the embedded values (`type(True)` is `bool`). -/
def pyTypeOf : PyVal → PyType
  | .vnone => .tnone
  | .vbool _ => .tbool
  | .vint _ => .tint
  | .vstr _ => .tstr
  | .vdatetime _ => .tdatetime
  | .vcallable _ => .tcallable

/-- `isinstance(v, t)`: exact type match, except that `bool` is a
subclass of `int` in Python. -/
def pyIsinstance (v : PyVal) (t : PyType) : Bool :=
  match v, t with
  | .vbool _, .tint => true
  | v, t => pyTypeOf v == t

/-- `callable(v)`. -/
def pyCallable : PyVal → Bool
  | .vcallable _ => true
  | _ => false

/-- `str(v)` (used by f-string interpolation when keys are built). -/
def pyStrVal : PyVal → String
  | .vnone => "None"
  | .vbool b => if b then "True" else "False"
  | .vint n => toString n
  | .vstr s => s
  | .vdatetime iso => iso
  | .vcallable name => name

/-- The whitespace characters stripped by Python's `int(str)`. -/
def isPySpace (c : Char) : Bool :=
  c == ' ' || c == '\t' || c == '\n' || c == '\r' || c == '\x0b' || c == '\x0c'

/-- Decimal digit characters. -/
def isDigitCh (c : Char) : Bool := '0' ≤ c && c ≤ '9'

/-- Numeric value of a digit character. -/
def digitVal (c : Char) : Nat := c.toNat - 48

/-- Accumulating digit scanner for `int(str)`: digits, with single
underscores allowed between digits. -/
def scanDigits : List Char → Nat → Option Nat
  | [], acc => some acc
  | c :: rest, acc =>
    if isDigitCh c then scanDigits rest (acc * 10 + digitVal c)
    else if c == '_' then
      match rest with
      | d :: _ => if isDigitCh d then scanDigits rest acc else none
      | [] => none
    else none

/-- The unsigned part of `int(str)`: nonempty and starting with a digit. -/
def scanUnsigned (cs : List Char) : Option Nat :=
  match cs with
  | c :: _ => if isDigitCh c then scanDigits cs 0 else none
  | [] => none

/-- Python's `int(s)` on a string: strip whitespace, optional single
sign, then a digit run; `none` models the raised `ValueError`. -/
def pyParseInt (s : String) : Option Int :=
  let cs := ((s.data.dropWhile isPySpace).reverse.dropWhile isPySpace).reverse
  match cs with
  | '+' :: rest => (scanUnsigned rest).map Int.ofNat
  | '-' :: rest => (scanUnsigned rest).map (fun n => -(n : Int))
  | _ => (scanUnsigned cs).map Int.ofNat

/-- `attribute_type(value)`: calling the type of the existing field on
the raw value, as done by `FileStorage._update_obj_attribute`.
`int("junk")` raises `ValueError`; calling `datetime` or `NoneType` on
any of these arguments raises `TypeError`. -/
def pyConvert : PyType → PyVal → Except PyErr PyVal
  | .tstr, v => .ok (.vstr (pyStrVal v))
  | .tint, .vstr s =>
    match pyParseInt s with
    | some n => .ok (.vint n)
    | none => .error .valueError
  | .tint, .vint n => .ok (.vint n)
  | .tint, .vbool b => .ok (.vint (if b then 1 else 0))
  | .tint, _ => .error .typeError
  | .tbool, v => .ok (.vbool (pyTruthy v))
  | .tdatetime, _ => .error .typeError
  | .tnone, _ => .error .typeError
  | .tcallable, _ => .error .typeError

/-- `p` is a leading segment of `s` (character-list form of Python's
`str.startswith`). -/
def listLeads : List Char → List Char → Bool
  | [], _ => true
  | _ :: _, [] => false
  | a :: as, b :: bs => a == b && listLeads as bs

/-- Python's `s.startswith(p)`. -/
def pyStartswith (s p : String) : Bool := listLeads p.data s.data

/-- Association-list lookup (`key in d` / `d.get(key)` on a Python
dict whose insertion order the list records). -/
def lookupKey {α : Type} : List (String × α) → String → Option α
  | [], _ => none
  | (k, v) :: rest, key => if k = key then some v else lookupKey rest key

/-- The in-place replacement of one entry performed by `d[key] = v`. -/
def replaceEntry {α : Type} (key : String) (v : α) (p : String × α) :
    String × α :=
  if p.1 = key then (key, v) else p

/-- Python `d[key] = v`: replace in place if present, else append. -/
def setEntry {α : Type} (l : List (String × α)) (key : String) (v : α) :
    List (String × α) :=
  if (lookupKey l key).isSome then l.map (replaceEntry key v)
  else l ++ [(key, v)]

/-- Python `del d[key]`. -/
def delEntry {α : Type} : List (String × α) → String → List (String × α)
  | [], _ => []
  | p :: rest, key => if p.1 = key then delEntry rest key else p :: delEntry rest key

/-- A live Python object: its class name and its `__dict__` in
insertion order. -/
structure PyObject where
  cls : String
  attrs : List (String × PyVal)
  deriving DecidableEq

/-- Modelled from the spec: the Entity's behavior members (`save`,
`to_dict`, ...) live on the class, so `hasattr`/`getattr` see them as
callable attributes; `models/base_model.py` itself is not under `src/`. -/
def classMethods : List String := ["save", "to_dict"]

/-- Python `hasattr(obj, name)`: instance attributes, then class members. -/
def pyHasattr (o : PyObject) (name : String) : Bool :=
  (lookupKey o.attrs name).isSome || classMethods.contains name

/-- Python `getattr(obj, name)` (only called under `hasattr`). -/
def pyGetattr (o : PyObject) (name : String) : PyVal :=
  match lookupKey o.attrs name with
  | some v => v
  | none => if classMethods.contains name then .vcallable name else .vnone

/-- Python `setattr(obj, name, v)`. -/
def pySetattr (o : PyObject) (name : String) (v : PyVal) : PyObject :=
  { o with attrs := setEntry o.attrs name v }

/-- The object's `id` attribute as used in f-strings and call chains. -/
def idValOf (o : PyObject) : PyVal :=
  match lookupKey o.attrs "id" with
  | some v => v
  | none => .vnone

/-- A serialized record in the JSON document. -/
abbrev PyDict := List (String × PyVal)

/-- The persisted JSON document: key to record (a JSON `null` record is
`none`). -/
abbrev Document := List (String × Option PyDict)

/-- The `FileStorage` state: `__objects` (values can be Python `None`
after a reload of an unresolvable record) and the JSON document
(`none` means the file is missing or malformed). -/
structure StorageState where
  objects : List (String × Option PyObject)
  file : Option Document
  deriving DecidableEq

/-- `FileStorage.get_models_names()`: the fixed `__MODELS` keys. -/
def getModelsNames : List String :=
  ["BaseModel", "User", "State", "City", "Amenity", "Place", "Review"]

/-- `FileStorage._get_obj_key(model_name, _id)`: `None` when either
part is falsy, otherwise the f-string `"{model_name}.{_id}"`. -/
def getObjKey (model_name : String) (_id : PyVal) : Option String :=
  if model_name = "" ∨ pyTruthy _id = false then none
  else some (model_name ++ "." ++ pyStrVal _id)

/-- `FileStorage.get_model_class(model_name)`: prints
`** class doesn't exist **` and returns `None` for anything that is not
a known model name; the class is represented by its name. -/
def get_model_class (model_name : PyVal) : Option String × List String :=
  match model_name with
  | .vstr s =>
    if s ∈ getModelsNames then (some s, [])
    else (none, ["** class doesn't exist **"])
  | _ => (none, ["** class doesn't exist **"])

/-- `FileStorage.find_obj(model_name, _id)`: `None` (silently) for an
unknown model name or falsy id, `** no instance found **` for an absent
key, otherwise the stored value (which can itself be Python `None`
after a reload of an unresolvable record). -/
def find_obj (st : StorageState) (model_name : String) (_id : PyVal) :
    Option PyObject × List String :=
  if model_name ∉ getModelsNames ∨ pyTruthy _id = false then (none, [])
  else
    match getObjKey model_name _id with
    | none => (none, ["** no instance found **"])
    | some key =>
      match lookupKey st.objects key with
      | none => (none, ["** no instance found **"])
      | some v => (v, [])

/-- The two timestamp fields of an Entity. -/
def tsField (k : String) : Bool := k == "created_at" || k == "updated_at"

/-- Modelled from the spec: `BaseModel.to_dict` (the file
`models/base_model.py` is not under `src/`) — "each value = object with
all Entity fields plus `__class__: \x7bKind\x7d`; timestamps as ISO-8601
strings".  A timestamp field is emitted as its ISO string, every other
field is copied, and the `__class__` discriminator is appended. -/
def serializeField (k : String) (v : PyVal) : PyVal :=
  if tsField k then
    match v with
    | .vdatetime iso => .vstr iso
    | w => w
  else v

/-- One attribute entry of `to_dict`. -/
def serEntry (kv : String × PyVal) : String × PyVal :=
  (kv.1, serializeField kv.1 kv.2)

/-- Modelled from the spec: the serialized form of one Entity
(`BaseModel.to_dict`). -/
def to_dict (o : PyObject) : PyDict :=
  o.attrs.map serEntry ++ [("__class__", .vstr o.cls)]

/-- Modelled from the spec: the kwargs form of `BaseModel.__init__`
parses the two timestamp strings back into datetimes and copies every
other field; `__class__` is not stored as a field. -/
def deserializeField (k : String) (v : PyVal) : PyVal :=
  if tsField k then
    match v with
    | .vstr iso => .vdatetime iso
    | w => w
  else v

/-- One attribute entry of the kwargs init. -/
def deserEntry (kv : String × PyVal) : String × PyVal :=
  (kv.1, deserializeField kv.1 kv.2)

/-- Modelled from the spec: `model_class(**dictionary)` — rebuilding an
Entity of class `cls` from its serialized record. -/
def modelFromDict (cls : String) (d : PyDict) : PyObject :=
  { cls := cls
    attrs := (d.filter (fun kv => !(kv.1 == "__class__"))).map deserEntry }

/-- `FileStorage._deserialize(dictionary)`: `None` for a null record or
a falsy `__class__` discriminator; resolving the discriminator through
`get_model_class` prints `** class doesn't exist **` when it is
unknown; otherwise the record is rebuilt. -/
def deserializeRecord (dictionary : Option PyDict) : Option PyObject × List String :=
  match dictionary with
  | none => (none, [])
  | some d =>
    let model_name := (lookupKey d "__class__").getD .vnone
    if pyTruthy model_name = false then (none, [])
    else
      match get_model_class model_name with
      | (none, out) => (none, out)
      | (some cls, _) => (some (modelFromDict cls d), [])

/-- The dict comprehension of `FileStorage.save`: `obj.to_dict()` on a
Python `None` entry raises `AttributeError`. -/
def serializeAll : List (String × Option PyObject) → Option Document
  | [] => some []
  | (_, none) :: _ => none
  | (k, some o) :: rest => (serializeAll rest).map (fun d => (k, some (to_dict o)) :: d)

/-- `FileStorage.save()`: serialize every live object and overwrite the
JSON document; the raise from a `None` entry happens while building the
comprehension, before the file is touched. -/
def save (st : StorageState) : Option PyErr × StorageState :=
  match serializeAll st.objects with
  | none => (some .attributeError, st)
  | some doc => (none, { st with file := some doc })

/-- `FileStorage.reload()`: a missing or malformed file is swallowed
and `__objects` is left as it was; otherwise every record of the
document is passed through `_deserialize`, keeping its key even when
deserialization yields `None`, and the diagnostics printed along the
way are collected in order. -/
def reload (st : StorageState) : StorageState × List String :=
  match st.file with
  | none => (st, [])
  | some doc =>
    ({ st with objects := doc.map (fun kd => (kd.1, (deserializeRecord kd.2).1)) },
     (doc.map (fun kd => (deserializeRecord kd.2).2)).flatten)

/-- `FileStorage.new(obj)`: ignore `None` and foreign classes,
otherwise store the object under its computed key.  (For an object
with a falsy id the source would index the dict with the key `None`;
no entity reachable by the claims has an empty id.) -/
def new (st : StorageState) (obj : Option PyObject) : StorageState :=
  match obj with
  | none => st
  | some o =>
    if o.cls ∉ getModelsNames then st
    else
      match getObjKey o.cls (idValOf o) with
      | none => st
      | some key => { st with objects := setEntry st.objects key (some o) }

/-- `FileStorage.remove_obj(model_name, _id)`: find first (propagating
its printed failure and changing nothing), then delete the key and
flush the store. -/
def remove_obj (st : StorageState) (model_name : String) (_id : PyVal) :
    Option PyErr × StorageState × List String :=
  match find_obj st model_name _id with
  | (none, out) => (none, st, out)
  | (some _, out) =>
    match getObjKey model_name _id with
    | none => (none, st, out)
    | some key =>
      let st' : StorageState := { st with objects := delEntry st.objects key }
      let r := save st'
      (r.1, r.2, out)

/-- `FileStorage.find_all(model_name)`: with no name, the string form
of every stored value; with an unknown name, the empty list (silently);
otherwise the objects whose class name matches.  `str(obj)` for the
Entity is modelled from the spec ("the string representation of every
live Entity"); `str(None)` is `"None"`. -/
def strOfEntry : Option PyObject → String
  | none => "None"
  | some o => "[" ++ o.cls ++ "] (" ++ pyStrVal (idValOf o) ++ ")"

/-- `obj.__class__.__name__` of a stored value (`NoneType` for `None`). -/
def classNameOfEntry : Option PyObject → String
  | none => "NoneType"
  | some o => o.cls

/-- `FileStorage.find_all`. -/
def find_all (st : StorageState) (model_name : String) : List String :=
  if model_name = "" then st.objects.map (fun p => strOfEntry p.2)
  else if model_name ∉ getModelsNames then []
  else
    (st.objects.filter (fun p => classNameOfEntry p.2 == model_name)).map
      (fun p => strOfEntry p.2)

/-- `FileStorage.count(model_name)`: `None` (the "unavailable"
sentinel) for an empty or unknown name, otherwise the number of keys
that start with the name. -/
def count (st : StorageState) (model_name : String) : Option Nat :=
  if model_name = "" then none
  else if model_name ∉ getModelsNames then none
  else some ((st.objects.filter (fun p => pyStartswith p.1 model_name)).length)

/-- `FileStorage._update_obj_attribute(obj, attribute_name, value)`:
the raised exception (if any) and the object afterwards.  The only
mutation is the final `setattr`, so on a raise the object is unchanged. -/
def updateObjAttributeStatic (obj : Option PyObject)
    (attribute_name value : PyVal) : Option PyErr × Option PyObject :=
  match obj with
  | none => (none, none)
  | some o =>
    match attribute_name with
    | .vstr name =>
      if pyHasattr o name = false then (none, some (pySetattr o name value))
      else
        let attr0 := pyGetattr o name
        if pyStartswith name "__" || pyStartswith name "_" then (none, some o)
        else if pyCallable attr0 then (none, some o)
        else
          let attrType := pyTypeOf attr0
          if !(pyIsinstance value .tstr || pyIsinstance value attrType) then
            (none, some o)
          else
            match pyConvert attrType value with
            | .ok v => (none, some (pySetattr o name v))
            | .error e => (some e, some o)
    | _ => (none, some o)

/-- `FileStorage.update_obj_attribute(model_name, _id, **kwargs)`:
resolve via `find_obj`, return silently on a falsy attribute name or
value, otherwise apply the coercion (the object is mutated in place, so
its registry entry changes with it) and flush; a raise from the
coercion escapes before any mutation or flush. -/
def update_obj_attribute (st : StorageState) (model_name : String) (_id : PyVal)
    (attribute_name attribute_value : PyVal) :
    Option PyErr × StorageState × List String :=
  match find_obj st model_name _id with
  | (none, out) => (none, st, out)
  | (some obj, out) =>
    if pyTruthy attribute_name = false ∨ pyTruthy attribute_value = false then
      (none, st, out)
    else
      match updateObjAttributeStatic (some obj) attribute_name attribute_value with
      | (some e, _) => (some e, st, out)
      | (none, obj') =>
        match getObjKey model_name _id with
        | none => (none, st, out)
        | some key =>
          let st' : StorageState :=
            { st with objects := setEntry st.objects key (some (obj'.getD obj)) }
          let r := save st'
          (r.1, r.2, out)

/-- `FileStorage.update_obj_attributes(model_name, _id, **kwargs)`:
one `update_obj_attribute` per mapping entry, in order; a raise stops
the iteration and escapes. -/
def update_obj_attributes (st : StorageState) (model_name : String) (_id : PyVal) :
    List (String × PyVal) → Option PyErr × StorageState × List String
  | [] => (none, st, [])
  | (k, v) :: rest =>
    match update_obj_attribute st model_name _id (.vstr k) v with
    | (some e, st', out) => (some e, st', out)
    | (none, st', out) =>
      let r := update_obj_attributes st' model_name _id rest
      (r.1, r.2.1, out ++ r.2.2)

/-- The registry-level `find` of the spec: resolve the Kind through
`get_model_class` (printing the UnknownKind diagnostic) and only then
look the key up through `find_obj` — the order every command follows. -/
def findEntity (st : StorageState) (model_name : String) (_id : PyVal) :
    Option PyObject × List String :=
  match get_model_class (.vstr model_name) with
  | (none, out) => (none, out)
  | (some cls, out) =>
    let r := find_obj st cls _id
    (r.1, out ++ r.2)

/-- `AirBnBCommand.get_model_name(tokens)` (console_commands.py). -/
def get_model_name (model_name : PyVal) : Option PyVal × List String :=
  if pyTruthy model_name = false then (none, ["** class name missing **"])
  else (some model_name, [])

/-- `AirBnBCommand.get_instance_id(tokens)`. -/
def get_instance_id (instance_id : PyVal) : Option PyVal × List String :=
  if pyTruthy instance_id = false then (none, ["** instance id missing **"])
  else (some instance_id, [])

/-- `AirBnBCommand.get_attribute_name_value_pair(tokens)`. -/
def get_attribute_name_value_pair (attribute_name attribute_value : PyVal) :
    Option (PyVal × PyVal) × List String :=
  if pyTruthy attribute_name = false then (none, ["** attribute name missing **"])
  else if pyTruthy attribute_value = false then (none, ["** value missing **"])
  else (some (attribute_name, attribute_value), [])

/-- `AirBnBCommand.get_model_class(tokens)`: the model-name token, then
the storage lookup. -/
def cmdGetModelClass (model_name : PyVal) : Option String × List String :=
  match get_model_name model_name with
  | (none, out) => (none, out)
  | (some m, out) =>
    let r := get_model_class m
    (r.1, out ++ r.2)

/-- `AirBnBCommand.get_model_instance(tokens)`: class, id, then
`find_obj`. -/
def get_model_instance (st : StorageState) (model_name instance_id : PyVal) :
    Option (String × PyObject) × List String :=
  match cmdGetModelClass model_name with
  | (none, out) => (none, out)
  | (some cls, out) =>
    match get_instance_id instance_id with
    | (none, out2) => (none, out ++ out2)
    | (some idv, out2) =>
      match find_obj st cls idv with
      | (none, out3) => (none, out ++ out2 ++ out3)
      | (some obj, out3) => (some (cls, obj), out ++ out2 ++ out3)

/-- `UpdateWithNameValuePairCommand.execute`: resolve the instance and
the attribute pair, then call `update_obj_attribute` with the class
name and `instance.id`. -/
def updateWithNameValuePairExecute (st : StorageState)
    (model_name instance_id attribute_name attribute_value : PyVal) :
    Option PyErr × StorageState × List String :=
  match get_model_instance st model_name instance_id with
  | (none, out) => (none, st, out)
  | (some (cls, obj), out) =>
    match get_attribute_name_value_pair attribute_name attribute_value with
    | (none, out2) => (none, st, out ++ out2)
    | (some (an, av), out2) =>
      let r := update_obj_attribute st cls (idValOf obj) an av
      (r.1, r.2.1, out ++ out2 ++ r.2.2)

/-- `UpdateWithDictCommand.execute`: resolve the instance, return
silently on a falsy dictionary token, otherwise apply
`update_obj_attributes` with the class name and `instance.id`. -/
def updateWithDictExecute (st : StorageState)
    (model_name instance_id : PyVal) (dictionary : List (String × PyVal)) :
    Option PyErr × StorageState × List String :=
  match get_model_instance st model_name instance_id with
  | (none, out) => (none, st, out)
  | (some (cls, obj), out) =>
    if dictionary = [] then (none, st, out)
    else
      let r := update_obj_attributes st cls (idValOf obj) dictionary
      (r.1, r.2.1, out ++ r.2.2)

/-- Every stored value is a real object (no Python `None` entries). -/
def allSome (l : List (String × Option PyObject)) : Bool :=
  l.all (fun p => p.2.isSome)

/-! ### Helper lemmas: strings, association lists, evaluation -/

theorem data_append (a b : String) : (a ++ b).data = a.data ++ b.data := rfl

theorem key_data (K i : String) :
    (K ++ "." ++ i).data = K.data ++ ('.' :: i.data) := by
  rw [data_append, data_append]
  simp

theorem listLeads_append_self : ∀ (l r : List Char), listLeads l (l ++ r) = true
  | [], _ => rfl
  | a :: as, r => by simp [listLeads, listLeads_append_self as r]

theorem listLeads_head {a b : Char} {as bs : List Char}
    (h : listLeads (a :: as) (b :: bs) = true) : a = b := by
  simp [listLeads] at h
  exact h.1

theorem listLeads_trans {p q s : List Char} (hpq : listLeads p q = true)
    (hqs : listLeads q s = true) : listLeads p s = true := by
  induction p generalizing q s with
  | nil => rfl
  | cons a as ih =>
    cases q with
    | nil => simp [listLeads] at hpq
    | cons b bs =>
      cases s with
      | nil => simp [listLeads] at hqs
      | cons c cs =>
        simp [listLeads] at hpq hqs ⊢
        exact ⟨hpq.1.trans hqs.1, ih hpq.2 hqs.2⟩

theorem lead_two_underscores {cs : List Char} (h : listLeads ['_'] cs = false) :
    listLeads ['_', '_'] cs = false := by
  cases cs with
  | nil => rfl
  | cons c cs' =>
    simp [listLeads] at h ⊢
    intro hc
    exact absurd hc h

theorem names_ne_empty : ∀ n ∈ getModelsNames, n ≠ "" := by decide

theorem names_head_inj : ∀ k ∈ getModelsNames, ∀ K ∈ getModelsNames,
    k.data.headD ' ' = K.data.headD ' ' → K = k := by decide

theorem leads_key_self (k i : String) : pyStartswith (k ++ "." ++ i) k = true := by
  unfold pyStartswith
  rw [key_data]
  exact listLeads_append_self _ _

theorem leads_key_eq {k K i : String} (hk : k ∈ getModelsNames)
    (hK : K ∈ getModelsNames)
    (h : pyStartswith (K ++ "." ++ i) k = true) : K = k := by
  unfold pyStartswith at h
  rw [key_data] at h
  cases hkd : k.data with
  | nil =>
    have : k = "" := String.ext hkd
    exact absurd this (names_ne_empty k hk)
  | cons a as =>
    cases hKd : K.data with
    | nil =>
      have : K = "" := String.ext hKd
      exact absurd this (names_ne_empty K hK)
    | cons b bs =>
      rw [hkd, hKd] at h
      have hab : a = b := listLeads_head (by simpa using h)
      apply names_head_inj k hk K hK
      rw [hkd, hKd]
      simp [hab]

theorem leads_key_dot {k K i : String} (hk : k ∈ getModelsNames)
    (hK : K ∈ getModelsNames) :
    pyStartswith (K ++ "." ++ i) k = pyStartswith (K ++ "." ++ i) (k ++ ".") := by
  by_cases hKk : K = k
  · subst hKk
    rw [leads_key_self]
    have : pyStartswith ((K ++ ".") ++ i) (K ++ ".") = true := by
      unfold pyStartswith
      rw [data_append]
      exact listLeads_append_self _ _
    exact this.symm
  · have h1 : pyStartswith (K ++ "." ++ i) k = false := by
      rcases Bool.eq_false_or_eq_true (pyStartswith (K ++ "." ++ i) k) with hh | hh
      · exact absurd (leads_key_eq hk hK hh) hKk
      · exact hh
    have h2 : pyStartswith (K ++ "." ++ i) (k ++ ".") = false := by
      rcases Bool.eq_false_or_eq_true (pyStartswith (K ++ "." ++ i) (k ++ "."))
        with hh | hh
      · have hlead : listLeads k.data (k ++ ".").data = true := by
          rw [data_append]
          exact listLeads_append_self _ _
        have hk' : pyStartswith (K ++ "." ++ i) k = true :=
          listLeads_trans hlead hh
        exact absurd (leads_key_eq hk hK hk') hKk
      · exact hh
    rw [h1, h2]

theorem lookupKey_append {α : Type} (l l' : List (String × α)) (k : String) :
    lookupKey (l ++ l') k =
      match lookupKey l k with
      | some w => some w
      | none => lookupKey l' k := by
  induction l with
  | nil => rfl
  | cons p rest ih =>
    obtain ⟨k0, v0⟩ := p
    by_cases hp : k0 = k <;> simp [lookupKey, hp, ih]

theorem lookupKey_delEntry {α : Type} (l : List (String × α)) (k : String) :
    lookupKey (delEntry l k) k = none := by
  induction l with
  | nil => rfl
  | cons p rest ih =>
    obtain ⟨k0, v0⟩ := p
    by_cases hp : k0 = k
    · simp only [delEntry, if_pos hp]
      exact ih
    · simp only [delEntry, if_neg hp, lookupKey]
      exact ih

theorem mem_delEntry {α : Type} {p : String × α} {l : List (String × α)}
    {k : String} (h : p ∈ delEntry l k) : p ∈ l := by
  induction l with
  | nil => exact h
  | cons q rest ih =>
    by_cases hq : q.1 = k
    · simp only [delEntry, if_pos hq] at h
      exact List.mem_cons_of_mem q (ih h)
    · simp only [delEntry, if_neg hq, List.mem_cons] at h
      rcases h with h | h
      · exact h ▸ List.mem_cons_self q rest
      · exact List.mem_cons_of_mem q (ih h)

theorem allSome_delEntry {l : List (String × Option PyObject)} {k : String}
    (h : allSome l = true) : allSome (delEntry l k) = true := by
  simp only [allSome, List.all_eq_true] at h ⊢
  exact fun p hp => h p (mem_delEntry hp)

theorem serializeAll_of_allSome {l : List (String × Option PyObject)}
    (h : allSome l = true) : ∃ d, serializeAll l = some d := by
  induction l with
  | nil => exact ⟨[], rfl⟩
  | cons p rest ih =>
    obtain ⟨k, v⟩ := p
    simp only [allSome, List.all_cons, Bool.and_eq_true] at h
    obtain ⟨o, ho⟩ := Option.isSome_iff_exists.mp h.1
    obtain ⟨d, hd⟩ := ih h.2
    subst ho
    exact ⟨(k, some (to_dict o)) :: d, by simp [serializeAll, hd]⟩

theorem save_of_allSome (st : StorageState) (h : allSome st.objects = true) :
    ∃ doc, serializeAll st.objects = some doc ∧
      save st = (none, { st with file := some doc }) := by
  obtain ⟨d, hd⟩ := serializeAll_of_allSome h
  exact ⟨d, hd, by simp [save, hd]⟩

theorem replaceEntry_eq {α : Type} (key : String) (v : α) (k0 : String)
    (v0 : α) : replaceEntry key v (k0, v0) = if k0 = key then (key, v) else (k0, v0) :=
  rfl

theorem replaceMap_notmem {α : Type} {l : List (String × α)} {k : String}
    {v : α} (h : k ∉ l.map Prod.fst) : l.map (replaceEntry k v) = l := by
  induction l with
  | nil => rfl
  | cons q rest ih =>
    obtain ⟨k0, v0⟩ := q
    simp only [List.map_cons, List.mem_cons, not_or] at h
    have hk0 : ¬k0 = k := fun hh => h.1 hh.symm
    rw [List.map_cons, replaceEntry_eq, if_neg hk0, ih h.2]

theorem replaceMap_lookup {α : Type} {l : List (String × α)} {k : String}
    {v : α} (h : (lookupKey l k).isSome = true) :
    lookupKey (l.map (replaceEntry k v)) k = some v := by
  induction l with
  | nil => simp [lookupKey] at h
  | cons q rest ih =>
    obtain ⟨k0, v0⟩ := q
    by_cases hq : k0 = k
    · subst hq
      rw [List.map_cons, replaceEntry_eq, if_pos rfl]
      simp [lookupKey]
    · rw [List.map_cons, replaceEntry_eq, if_neg hq]
      simp only [lookupKey, if_neg hq] at h ⊢
      exact ih h

theorem lookupKey_setEntry_self {α : Type} (l : List (String × α)) (k : String)
    (v : α) : lookupKey (setEntry l k v) k = some v := by
  unfold setEntry
  by_cases hs : (lookupKey l k).isSome
  · rw [if_pos hs]
    exact replaceMap_lookup hs
  · rw [if_neg hs, lookupKey_append]
    have hnone : lookupKey l k = none := Option.not_isSome_iff_eq_none.mp hs
    simp [hnone, lookupKey]

theorem lookupKey_replaceMap_ne {α : Type} {l : List (String × α)}
    {k a : String} {v : α} (h : k ≠ a) :
    lookupKey (l.map (replaceEntry a v)) k = lookupKey l k := by
  induction l with
  | nil => rfl
  | cons q rest ih =>
    obtain ⟨k0, v0⟩ := q
    by_cases hq : k0 = a
    · subst hq
      rw [List.map_cons, replaceEntry_eq, if_pos rfl]
      have hak : ¬k0 = k := fun hh => h (hh.symm)
      simp only [lookupKey, if_neg hak]
      exact ih
    · rw [List.map_cons, replaceEntry_eq, if_neg hq]
      by_cases hk0 : k0 = k
      · simp [lookupKey, hk0]
      · simp only [lookupKey, if_neg hk0]
        exact ih

theorem lookupKey_setEntry_ne {α : Type} (l : List (String × α)) {k a : String}
    (v : α) (h : k ≠ a) : lookupKey (setEntry l a v) k = lookupKey l k := by
  unfold setEntry
  by_cases hs : (lookupKey l a).isSome
  · rw [if_pos hs]
    exact lookupKey_replaceMap_ne h
  · rw [if_neg hs, lookupKey_append]
    cases hl : lookupKey l k with
    | some w => rfl
    | none =>
      have hak : ¬a = k := fun hh => h hh.symm
      simp [lookupKey, if_neg hak]

theorem replaceMap_self {α : Type} :
    ∀ {l : List (String × α)} {k : String} {v : α},
    (l.map Prod.fst).Nodup → lookupKey l k = some v →
    l.map (replaceEntry k v) = l := by
  intro l
  induction l with
  | nil => intro k v _ h; simp [lookupKey] at h
  | cons q rest ih =>
    intro k v hnd h
    obtain ⟨k0, v0⟩ := q
    simp only [List.map_cons, List.nodup_cons] at hnd
    by_cases hq : k0 = k
    · subst hq
      simp [lookupKey] at h
      subst h
      rw [List.map_cons, replaceEntry_eq, if_pos rfl, replaceMap_notmem hnd.1]
    · simp only [lookupKey, if_neg hq] at h
      rw [List.map_cons, replaceEntry_eq, if_neg hq, ih hnd.2 h]

theorem setEntry_self {α : Type} {l : List (String × α)} {k : String} {v : α}
    (hnd : (l.map Prod.fst).Nodup) (h : lookupKey l k = some v) :
    setEntry l k v = l := by
  unfold setEntry
  rw [h]
  simp only [Option.isSome_some, if_true]
  exact replaceMap_self hnd h

theorem allSome_setEntry {l : List (String × Option PyObject)} {k : String}
    {o : PyObject} (h : allSome l = true) :
    allSome (setEntry l k (some o)) = true := by
  unfold setEntry
  by_cases hs : (lookupKey l k).isSome
  · rw [if_pos hs]
    simp only [allSome, List.all_eq_true] at h ⊢
    intro p hp
    obtain ⟨q, hq, hpq⟩ := List.mem_map.mp hp
    obtain ⟨k0, v0⟩ := q
    by_cases hqk : k0 = k
    · subst hqk
      rw [replaceEntry_eq, if_pos rfl] at hpq
      subst hpq
      rfl
    · rw [replaceEntry_eq, if_neg hqk] at hpq
      subst hpq
      exact h _ hq
  · rw [if_neg hs]
    simp only [allSome, List.all_eq_true] at h ⊢
    intro p hp
    rcases List.mem_append.mp hp with hp | hp
    · exact h p hp
    · simp only [List.mem_singleton] at hp
      subst hp
      rfl

theorem truthy_vstr {s : String} (h : s ≠ "") : pyTruthy (.vstr s) = true := by
  simp [pyTruthy, h]

theorem get_model_class_known {m : String} (hm : m ∈ getModelsNames) :
    get_model_class (.vstr m) = (some m, []) := by
  simp [get_model_class, hm]

theorem get_model_class_unknown {m : String} (hm : m ∉ getModelsNames) :
    get_model_class (.vstr m) = (none, ["** class doesn't exist **"]) := by
  simp [get_model_class, hm]

theorem find_obj_found {st : StorageState} {m : String} {i : PyVal}
    {w : Option PyObject} (hm : m ∈ getModelsNames) (hi : pyTruthy i = true)
    (ho : lookupKey st.objects (m ++ "." ++ pyStrVal i) = some w) :
    find_obj st m i = (w, []) := by
  have hmne : m ≠ "" := names_ne_empty m hm
  simp [find_obj, getObjKey, hm, hi, hmne, ho]

theorem find_obj_notfound {st : StorageState} {m : String} {i : PyVal}
    (hm : m ∈ getModelsNames) (hi : pyTruthy i = true)
    (ho : lookupKey st.objects (m ++ "." ++ pyStrVal i) = none) :
    find_obj st m i = (none, ["** no instance found **"]) := by
  have hmne : m ≠ "" := names_ne_empty m hm
  simp [find_obj, getObjKey, hm, hi, hmne, ho]

theorem find_obj_silent_unknown {st : StorageState} {m : String} {i : PyVal}
    (hm : m ∉ getModelsNames) : find_obj st m i = (none, []) := by
  simp [find_obj, hm]

theorem find_obj_silent_falsy {st : StorageState} {m : String} {i : PyVal}
    (hi : pyTruthy i = false) : find_obj st m i = (none, []) := by
  simp [find_obj, hi]

theorem updateStatic_existing {o : PyObject} {a : String} {v w : PyVal}
    (ha : lookupKey o.attrs a = some w)
    (hu : pyStartswith a "_" = false)
    (hc : pyCallable w = false) :
    updateObjAttributeStatic (some o) (.vstr a) v =
      if pyIsinstance v .tstr || pyIsinstance v (pyTypeOf w) then
        match pyConvert (pyTypeOf w) v with
        | .ok v' => (none, some (pySetattr o a v'))
        | .error e => (some e, some o)
      else (none, some o) := by
  have hh : pyHasattr o a = true := by simp [pyHasattr, ha]
  have hg : pyGetattr o a = w := by simp [pyGetattr, ha]
  have h2 : pyStartswith a "__" = false := lead_two_underscores hu
  simp only [updateObjAttributeStatic, hh, hg, h2, hu, hc, Bool.false_or,
    Bool.or_self, if_neg, Bool.not_eq_true]
  by_cases hA : pyIsinstance v PyType.tstr = true <;>
    by_cases hB : pyIsinstance v (pyTypeOf w) = true <;>
      simp [hA, hB]

/-- The storage state after the in-place mutation of the object stored
at `key`. -/
def withObj (st : StorageState) (key : String) (o : PyObject) : StorageState :=
  { st with objects := setEntry st.objects key (some o) }

theorem update_obj_attribute_ok {st : StorageState} {m : String} {i : PyVal}
    {a : String} {v w : PyVal} {o : PyObject} (v' : PyVal)
    (hm : m ∈ getModelsNames) (hi : pyTruthy i = true)
    (ho : lookupKey st.objects (m ++ "." ++ pyStrVal i) = some (some o))
    (ha : lookupKey o.attrs a = some w)
    (hu : pyStartswith a "_" = false)
    (hc : pyCallable w = false)
    (hta : a ≠ "") (hv : pyTruthy v = true)
    (hiso : (pyIsinstance v .tstr || pyIsinstance v (pyTypeOf w)) = true)
    (hcv : pyConvert (pyTypeOf w) v = .ok v') :
    update_obj_attribute st m i (.vstr a) v =
      ((save (withObj st (m ++ "." ++ pyStrVal i) (pySetattr o a v'))).1,
       (save (withObj st (m ++ "." ++ pyStrVal i) (pySetattr o a v'))).2,
       []) := by
  have hmne : m ≠ "" := names_ne_empty m hm
  have hstatic : updateObjAttributeStatic (some o) (.vstr a) v =
      (none, some (pySetattr o a v')) := by
    rw [updateStatic_existing ha hu hc]
    simp [hiso, hcv]
  simp [update_obj_attribute, find_obj_found hm hi ho, truthy_vstr hta, hv,
    hstatic, getObjKey, hmne, hi, withObj]

theorem update_obj_attribute_refused {st : StorageState} {m : String} {i : PyVal}
    {a : String} {v w : PyVal} {o : PyObject}
    (hm : m ∈ getModelsNames) (hi : pyTruthy i = true)
    (ho : lookupKey st.objects (m ++ "." ++ pyStrVal i) = some (some o))
    (ha : lookupKey o.attrs a = some w)
    (hu : pyStartswith a "_" = false)
    (hc : pyCallable w = false)
    (hta : a ≠ "") (hv : pyTruthy v = true)
    (hiso : (pyIsinstance v .tstr || pyIsinstance v (pyTypeOf w)) = false) :
    update_obj_attribute st m i (.vstr a) v =
      ((save (withObj st (m ++ "." ++ pyStrVal i) o)).1,
       (save (withObj st (m ++ "." ++ pyStrVal i) o)).2,
       []) := by
  have hmne : m ≠ "" := names_ne_empty m hm
  have hstatic : updateObjAttributeStatic (some o) (.vstr a) v = (none, some o) := by
    rw [updateStatic_existing ha hu hc]
    simp [hiso]
  simp [update_obj_attribute, find_obj_found hm hi ho, truthy_vstr hta, hv,
    hstatic, getObjKey, hmne, hi, withObj]

theorem update_obj_attribute_raises {st : StorageState} {m : String} {i : PyVal}
    {a : String} {v w : PyVal} {o : PyObject} {e : PyErr}
    (hm : m ∈ getModelsNames) (hi : pyTruthy i = true)
    (ho : lookupKey st.objects (m ++ "." ++ pyStrVal i) = some (some o))
    (ha : lookupKey o.attrs a = some w)
    (hu : pyStartswith a "_" = false)
    (hc : pyCallable w = false)
    (hta : a ≠ "") (hv : pyTruthy v = true)
    (hiso : (pyIsinstance v .tstr || pyIsinstance v (pyTypeOf w)) = true)
    (hcv : pyConvert (pyTypeOf w) v = .error e) :
    update_obj_attribute st m i (.vstr a) v = (some e, st, []) := by
  have hstatic : updateObjAttributeStatic (some o) (.vstr a) v = (some e, some o) := by
    rw [updateStatic_existing ha hu hc]
    simp [hiso, hcv]
  simp [update_obj_attribute, find_obj_found hm hi ho, truthy_vstr hta, hv,
    hstatic]

/-- Whether a value is a `datetime`. -/
def isDatetimeVal : PyVal → Bool
  | .vdatetime _ => true
  | _ => false

/-- A well-formed Entity: a known class, no stray `__class__` field,
and `datetime` values in the two timestamp fields. -/
def entityWF (o : PyObject) : Bool :=
  decide (o.cls ∈ getModelsNames) &&
    o.attrs.all (fun kv => !(kv.1 == "__class__") && (!tsField kv.1 || isDatetimeVal kv.2))

/-- A well-formed store: every entry holds a well-formed Entity. -/
def storeWF (l : List (String × Option PyObject)) : Bool :=
  l.all (fun p =>
    match p.2 with
    | some o => entityWF o
    | none => false)

theorem deser_ser_field (k : String) (v : PyVal)
    (h : tsField k = true → isDatetimeVal v = true) :
    deserializeField k (serializeField k v) = v := by
  by_cases ht : tsField k = true
  · cases v with
    | vdatetime iso => simp [serializeField, deserializeField, ht]
    | vnone => simp [isDatetimeVal] at h; simp [h] at ht
    | vbool b => simp [isDatetimeVal] at h; simp [h] at ht
    | vint n => simp [isDatetimeVal] at h; simp [h] at ht
    | vstr s => simp [isDatetimeVal] at h; simp [h] at ht
    | vcallable n => simp [isDatetimeVal] at h; simp [h] at ht
  · have ht' : tsField k = false := Bool.not_eq_true _ ▸ Bool.of_not_eq_true ht
    simp [serializeField, deserializeField, ht']

theorem round_attrs (x : PyVal) :
    ∀ (l : List (String × PyVal)),
    (∀ kv ∈ l, ((kv.1 == "__class__") = false) ∧
      (tsField kv.1 = true → isDatetimeVal kv.2 = true)) →
    ((l.map serEntry ++ [("__class__", x)]).filter
        (fun kv => !(kv.1 == "__class__"))).map deserEntry = l := by
  intro l
  induction l with
  | nil => intro _; simp
  | cons kv rest ih =>
    intro h
    obtain ⟨hk, ht⟩ := h kv (List.mem_cons_self kv rest)
    have hrest := fun p hp => h p (List.mem_cons_of_mem kv hp)
    simp only [List.map_cons, List.cons_append, List.filter_cons]
    rw [show (serEntry kv).1 = kv.1 from rfl] at *
    simp only [hk, Bool.not_false, if_pos]
    rw [List.map_cons]
    have hde : deserEntry (serEntry kv) = kv := by
      obtain ⟨k, v⟩ := kv
      simp only [serEntry, deserEntry]
      rw [deser_ser_field k v ht]
    rw [hde, ih hrest]

theorem lookup_class_aux {x : PyVal} :
    ∀ {l : List (String × PyVal)},
    (∀ kv ∈ l, (kv.1 == "__class__") = false) →
    lookupKey (l.map serEntry ++ [("__class__", x)]) "__class__" = some x := by
  intro l
  induction l with
  | nil => intro _; simp [lookupKey]
  | cons kv rest ih =>
    intro h
    obtain ⟨k, v⟩ := kv
    have hk := h (k, v) (List.mem_cons_self _ rest)
    have hk' : ¬k = "__class__" := by simpa using hk
    simp only [List.map_cons, List.cons_append, serEntry, lookupKey, if_neg hk']
    exact ih fun p hp => h p (List.mem_cons_of_mem _ hp)

theorem entityWF_parts {o : PyObject} (h : entityWF o = true) :
    o.cls ∈ getModelsNames ∧
      (∀ kv ∈ o.attrs, (kv.1 == "__class__") = false) ∧
      (∀ kv ∈ o.attrs, tsField kv.1 = true → isDatetimeVal kv.2 = true) := by
  simp only [entityWF, Bool.and_eq_true, decide_eq_true_eq, List.all_eq_true] at h
  refine ⟨h.1, fun kv hkv => ?_, fun kv hkv => ?_⟩
  · have := h.2 kv hkv
    simp only [Bool.and_eq_true, Bool.not_eq_true'] at this
    exact this.1
  · intro hts
    have := h.2 kv hkv
    simp only [Bool.and_eq_true, Bool.not_eq_true', Bool.or_eq_true,
      Bool.not_eq_true] at this
    rcases this.2 with hf | hd
    · rw [hts] at hf; exact absurd hf (by simp)
    · exact hd

theorem deserializeRecord_to_dict {o : PyObject} (h : entityWF o = true) :
    deserializeRecord (some (to_dict o)) = (some o, []) := by
  obtain ⟨hcls, hkeys, hts⟩ := entityWF_parts h
  have hlk : lookupKey (to_dict o) "__class__" = some (.vstr o.cls) :=
    lookup_class_aux hkeys
  have hclsne : o.cls ≠ "" := names_ne_empty _ hcls
  have hmodel : modelFromDict o.cls (to_dict o) = o := by
    unfold modelFromDict to_dict
    have := round_attrs (PyVal.vstr o.cls) o.attrs
      (fun kv hkv => ⟨hkeys kv hkv, hts kv hkv⟩)
    rw [this]
  simp [deserializeRecord, to_dict] at hlk ⊢
  rw [hlk]
  simp [truthy_vstr hclsne, get_model_class_known hcls]
  rw [show modelFromDict o.cls (o.attrs.map serEntry ++ [("__class__", PyVal.vstr o.cls)]) = modelFromDict o.cls (to_dict o) from rfl, hmodel]

theorem roundtrip_list :
    ∀ {l : List (String × Option PyObject)}, storeWF l = true →
    ∃ doc, serializeAll l = some doc ∧
      doc.map (fun kd => (kd.1, (deserializeRecord kd.2).1)) = l ∧
      (doc.map (fun kd => (deserializeRecord kd.2).2)).flatten = [] := by
  intro l
  induction l with
  | nil => exact fun _ => ⟨[], rfl, rfl, rfl⟩
  | cons p rest ih =>
    intro h
    obtain ⟨k, v⟩ := p
    simp only [storeWF, List.all_cons, Bool.and_eq_true] at h
    cases v with
    | none => simp at h
    | some o =>
      obtain ⟨doc', hdoc', hmap', hout'⟩ := ih h.2
      refine ⟨(k, some (to_dict o)) :: doc', by simp [serializeAll, hdoc'], ?_, ?_⟩
      · rw [List.map_cons, hmap']
        simp [deserializeRecord_to_dict h.1]
      · rw [List.map_cons, List.flatten_cons, hout']
        simp [deserializeRecord_to_dict h.1]

theorem update_obj_attribute_falsy {st : StorageState} {m : String}
    {i an av : PyVal} (hv : pyTruthy av = false) :
    update_obj_attribute st m i an av = (none, st, (find_obj st m i).2) := by
  rcases hfind : find_obj st m i with ⟨obj?, out⟩
  cases obj? with
  | none => simp [update_obj_attribute, hfind]
  | some obj => simp [update_obj_attribute, hfind, hv]

/-! ### Concrete fixtures shared by witnesses and counterexamples -/

/-- A live User entity with a numeric `age` field. -/
def sampleUser : PyObject :=
  { cls := "User"
    attrs := [("id", .vstr "u1"), ("created_at", .vdatetime "2024-01-01T00:00:00"),
              ("updated_at", .vdatetime "2024-01-01T00:00:00"), ("age", .vint 30)] }

/-- A one-entity registry state. -/
def sampleStore : StorageState :=
  { objects := [("User.u1", some sampleUser)], file := none }

/-- `sampleUser` after its `id` has been rewritten through
`updateAttribute`. -/
def hackedUser : PyObject :=
  { cls := "User"
    attrs := [("id", .vstr "hacked"), ("created_at", .vdatetime "2024-01-01T00:00:00"),
              ("updated_at", .vdatetime "2024-01-01T00:00:00"), ("age", .vint 30)] }

/-- `sampleUser` after a successful `age` update to 22. -/
def agedUser : PyObject :=
  { cls := "User"
    attrs := [("id", .vstr "u1"), ("created_at", .vdatetime "2024-01-01T00:00:00"),
              ("updated_at", .vdatetime "2024-01-01T00:00:00"), ("age", .vint 22)] }

/-- A persisted document holding one record with an unknown `__class__`. -/
def badDoc : Document := [("Foo.1", some [("__class__", .vstr "Foo")])]

/-- An empty store pointed at `badDoc`. -/
def badStore : StorageState := { objects := [], file := some badDoc }

/-! ### Claims -/

/-- C1 counterexample: on a live entity whose `age` field holds the int 30,
`updateAttribute(..., "age", "not-a-number")` does not reject quietly — the
`int("not-a-number")` coercion raises a `ValueError` that escapes both the
registry operation and the Update command's `execute`, contradicting the
claim that no exception escapes. -/
theorem claim1_counterexample :
    (update_obj_attribute sampleStore "User" (.vstr "u1") (.vstr "age")
        (.vstr "not-a-number")).1 = some .valueError ∧
    (updateWithNameValuePairExecute sampleStore (.vstr "User") (.vstr "u1")
        (.vstr "age") (.vstr "not-a-number")).1 = some .valueError := by
  exact ⟨by decide, by decide⟩

/-- C1 (amended): for a live entity with an existing int-typed field and a
raw string that is not an int literal, the attribute and the whole store are
left unchanged, but the rejection is a deterministic raised `ValueError`
that escapes the registry operation and (when the entity's id matches the
token) the Update command's `execute`. -/
theorem claim1_invalid_literal_raises (st : StorageState) (m : String)
    (i : PyVal) (a s : String) (n : Int) (o : PyObject)
    (hm : m ∈ getModelsNames) (hi : pyTruthy i = true)
    (ho : lookupKey st.objects (m ++ "." ++ pyStrVal i) = some (some o))
    (ha : lookupKey o.attrs a = some (.vint n))
    (hu : pyStartswith a "_" = false)
    (hta : a ≠ "") (hs : pyParseInt s = none) (hsne : s ≠ "") :
    update_obj_attribute st m i (.vstr a) (.vstr s) = (some .valueError, st, []) ∧
    (idValOf o = i →
      updateWithNameValuePairExecute st (.vstr m) i (.vstr a) (.vstr s) =
        (some .valueError, st, [])) := by
  have hmne : m ≠ "" := names_ne_empty m hm
  have hcv : pyConvert (pyTypeOf (PyVal.vint n)) (.vstr s) = .error .valueError := by
    simp [pyConvert, pyTypeOf, hs]
  have h1 : update_obj_attribute st m i (.vstr a) (.vstr s) =
      (some .valueError, st, []) :=
    update_obj_attribute_raises hm hi ho ha hu rfl hta (truthy_vstr hsne)
      rfl hcv
  refine ⟨h1, fun hid => ?_⟩
  simp [updateWithNameValuePairExecute, get_model_instance, cmdGetModelClass,
    get_model_name, get_instance_id, get_attribute_name_value_pair,
    truthy_vstr hmne, hi, get_model_class_known hm, find_obj_found hm hi ho,
    truthy_vstr hta, truthy_vstr hsne, hid, h1]

/-- C1 witness: the amended theorem applied to the concrete one-User store. -/
theorem claim1_invalid_literal_raises_witness :
    update_obj_attribute sampleStore "User" (.vstr "u1") (.vstr "age")
        (.vstr "not-a-number") = (some .valueError, sampleStore, []) ∧
    updateWithNameValuePairExecute sampleStore (.vstr "User") (.vstr "u1")
        (.vstr "age") (.vstr "not-a-number") = (some .valueError, sampleStore, []) := by
  have h := claim1_invalid_literal_raises sampleStore "User" (.vstr "u1") "age"
    "not-a-number" 30 sampleUser (by decide) (by decide) (by decide) (by decide)
    (by decide) (by decide) (by decide) (by decide)
  exact ⟨h.1, h.2 (by decide)⟩

/-- C2 counterexample: `updateAttribute(..., "id", "hacked")` on a live
entity whose id is "u1" succeeds and rewrites the entity's `id` field to
"hacked" (the registry key stays `"User.u1"`), contradicting the claim that
the id is never mutated by any registry operation. -/
theorem claim2_counterexample :
    (update_obj_attribute sampleStore "User" (.vstr "u1") (.vstr "id")
        (.vstr "hacked")).1 = none ∧
    lookupKey (update_obj_attribute sampleStore "User" (.vstr "u1") (.vstr "id")
        (.vstr "hacked")).2.1.objects "User.u1" = some (some hackedUser) ∧
    lookupKey hackedUser.attrs "id" = some (.vstr "hacked") ∧
    lookupKey sampleUser.attrs "id" = some (.vstr "u1") := by
  exact ⟨by decide, by decide, by decide, by decide⟩

/-- C2 (amended): only attributes whose names start with an underscore are
protected; the `id` field itself is mutable — `updateAttribute` with the
attribute name "id" and a truthy string value v rewrites the live entity's
id to v in place (under its unchanged registry key) and flushes. -/
theorem claim2_id_is_mutable (st : StorageState) (m : String) (i : PyVal)
    (v old : String) (o : PyObject)
    (hm : m ∈ getModelsNames) (hi : pyTruthy i = true)
    (ho : lookupKey st.objects (m ++ "." ++ pyStrVal i) = some (some o))
    (hid : lookupKey o.attrs "id" = some (.vstr old))
    (hv : v ≠ "") (hall : allSome st.objects = true) :
    ∃ doc, update_obj_attribute st m i (.vstr "id") (.vstr v) =
      (none, { withObj st (m ++ "." ++ pyStrVal i) (pySetattr o "id" (.vstr v)) with file := some doc }, []) ∧
      lookupKey (pySetattr o "id" (.vstr v)).attrs "id" = some (.vstr v) := by
  have hok := update_obj_attribute_ok (PyVal.vstr v) hm hi ho hid
    (by decide) rfl (by decide) (truthy_vstr hv) rfl rfl
  have hall' : allSome (withObj st (m ++ "." ++ pyStrVal i)
      (pySetattr o "id" (.vstr v))).objects = true := allSome_setEntry hall
  obtain ⟨doc, _, hsave⟩ := save_of_allSome _ hall'
  refine ⟨doc, ?_, lookupKey_setEntry_self _ _ _⟩
  rw [hok, hsave]

/-- C2 witness: the amended theorem applied to the concrete one-User store. -/
theorem claim2_id_is_mutable_witness :
    ∃ doc, update_obj_attribute sampleStore "User" (.vstr "u1") (.vstr "id")
      (.vstr "hacked") =
      (none, { withObj sampleStore ("User" ++ "." ++ pyStrVal (.vstr "u1")) (pySetattr sampleUser "id" (.vstr "hacked")) with file := some doc }, []) ∧
      lookupKey (pySetattr sampleUser "id" (.vstr "hacked")).attrs "id" =
        some (.vstr "hacked") :=
  claim2_id_is_mutable sampleStore "User" (.vstr "u1") "hacked" "u1" sampleUser
    (by decide) (by decide) (by decide) (by decide) (by decide) (by decide)

/-- C3 counterexample: a successful `updateAttribute` (age 30 → 22) flushes
the store but leaves `updated_at` exactly as it was, contradicting the claim
that the mutation bumps `updated_at` to the current time and strictly
advances it. -/
theorem claim3_counterexample :
    (update_obj_attribute sampleStore "User" (.vstr "u1") (.vstr "age")
        (.vstr "22")).1 = none ∧
    lookupKey (update_obj_attribute sampleStore "User" (.vstr "u1") (.vstr "age")
        (.vstr "22")).2.1.objects "User.u1" = some (some agedUser) ∧
    (update_obj_attribute sampleStore "User" (.vstr "u1") (.vstr "age")
        (.vstr "22")).2.1.file ≠ none ∧
    lookupKey agedUser.attrs "updated_at" = lookupKey sampleUser.attrs "updated_at" := by
  exact ⟨by decide, by decide, by decide, by decide⟩

/-- C3 (amended): a successful `updateAttribute` on an existing int field
coerces and stores the value and flushes the whole store to the JSON
document, but it never touches `updated_at`: the timestamp after the call is
exactly the timestamp before it. -/
theorem claim3_flushes_without_bumping_updated_at (st : StorageState)
    (m : String) (i : PyVal) (a s : String) (n p : Int) (o : PyObject)
    (hm : m ∈ getModelsNames) (hi : pyTruthy i = true)
    (ho : lookupKey st.objects (m ++ "." ++ pyStrVal i) = some (some o))
    (ha : lookupKey o.attrs a = some (.vint p))
    (hu : pyStartswith a "_" = false) (hta : a ≠ "")
    (hne : a ≠ "updated_at")
    (hs : pyParseInt s = some n) (hall : allSome st.objects = true) :
    ∃ doc, update_obj_attribute st m i (.vstr a) (.vstr s) =
      (none, { withObj st (m ++ "." ++ pyStrVal i) (pySetattr o a (.vint n)) with file := some doc }, []) ∧
      lookupKey (pySetattr o a (.vint n)).attrs "updated_at" =
        lookupKey o.attrs "updated_at" := by
  have hsne : s ≠ "" := by
    intro hh
    subst hh
    have h0 : pyParseInt "" = none := by decide
    rw [h0] at hs
    exact Option.noConfusion hs
  have hok := update_obj_attribute_ok (PyVal.vint n) hm hi ho ha hu rfl
    hta (truthy_vstr hsne) rfl
    (by simp [pyConvert, pyTypeOf, hs])
  have hall' : allSome (withObj st (m ++ "." ++ pyStrVal i)
      (pySetattr o a (.vint n))).objects = true := allSome_setEntry hall
  obtain ⟨doc, _, hsave⟩ := save_of_allSome _ hall'
  refine ⟨doc, ?_, ?_⟩
  · rw [hok, hsave]
  · exact lookupKey_setEntry_ne _ _ (fun hh => hne hh.symm)

/-- C3 witness: the amended theorem applied to the concrete one-User store. -/
theorem claim3_flushes_without_bumping_updated_at_witness :
    ∃ doc, update_obj_attribute sampleStore "User" (.vstr "u1") (.vstr "age")
      (.vstr "22") =
      (none, { withObj sampleStore ("User" ++ "." ++ pyStrVal (.vstr "u1")) (pySetattr sampleUser "age" (.vint 22)) with file := some doc }, []) ∧
      lookupKey (pySetattr sampleUser "age" (.vint 22)).attrs "updated_at" =
        lookupKey sampleUser.attrs "updated_at" :=
  claim3_flushes_without_bumping_updated_at sampleStore "User" (.vstr "u1")
    "age" "22" 22 30 sampleUser (by decide) (by decide) (by decide) (by decide)
    (by decide) (by decide) (by decide) (by decide) (by decide)

/-- C4: for a well-formed store, `save` succeeds and a subsequent `reload`
of the written document restores exactly the same objects — every entity
round-trips with identical id, timestamps ("modulo ISO-8601 string
formatting", which the embedding carries verbatim) and extra fields, and
the reload prints nothing. -/
theorem claim4_save_reload_roundtrip (st : StorageState)
    (h : storeWF st.objects = true) :
    ∃ st', save st = (none, st') ∧ st'.objects = st.objects ∧
      reload st' = (st', []) := by
  obtain ⟨doc, hdoc, hmap, hout⟩ := roundtrip_list h
  refine ⟨{ st with file := some doc }, by simp [save, hdoc], rfl, ?_⟩
  simp [reload, hmap, hout]

/-- C4 witness: the round trip on the concrete one-User store. -/
theorem claim4_save_reload_roundtrip_witness :
    storeWF sampleStore.objects = true ∧
    ∃ st', save sampleStore = (none, st') ∧ st'.objects = sampleStore.objects ∧
      reload st' = (st', []) :=
  ⟨by decide, claim4_save_reload_roundtrip sampleStore (by decide)⟩

/-- C5: `count` returns the `None` sentinel (not zero) for an empty or
unknown kind name; for a known kind over a store whose keys all have the
shape `"Kind.id"`, it returns exactly the number of keys prefixed by
`"kind."`; in particular a store holding only entities of that kind counts
to its full size. -/
theorem claim5_count (st : StorageState)
    (hwf : ∀ q ∈ st.objects, ∃ K j, K ∈ getModelsNames ∧ j ≠ "" ∧
      q.1 = K ++ "." ++ j) :
    count st "" = none ∧
    (∀ k, k ∉ getModelsNames → count st k = none) ∧
    (∀ k ∈ getModelsNames,
      count st k =
        some ((st.objects.filter (fun q => pyStartswith q.1 (k ++ "."))).length)) ∧
    (∀ k ∈ getModelsNames,
      (∀ q ∈ st.objects, ∃ j, j ≠ "" ∧ q.1 = k ++ "." ++ j) →
      count st k = some st.objects.length) := by
  refine ⟨by simp [count], fun k hk => ?_, fun k hk => ?_, fun k hk hall => ?_⟩
  · by_cases hke : k = ""
    · simp [count, hke]
    · simp [count, hke, hk]
  · have hke : k ≠ "" := names_ne_empty k hk
    have hfeq : st.objects.filter (fun q => pyStartswith q.1 k) =
        st.objects.filter (fun q => pyStartswith q.1 (k ++ ".")) := by
      apply List.filter_congr
      intro q hq
      obtain ⟨K, j, hK, hj, hq1⟩ := hwf q hq
      rw [hq1]
      exact leads_key_dot hk hK
    simp only [count, if_neg hke]
    rw [if_neg (show ¬k ∉ getModelsNames from fun hh => hh hk), hfeq]
  · have hke : k ≠ "" := names_ne_empty k hk
    have hfeq : st.objects.filter (fun q => pyStartswith q.1 k) = st.objects := by
      apply List.filter_eq_self.mpr
      intro q hq
      obtain ⟨j, hj, hq1⟩ := hall q hq
      rw [hq1]
      exact leads_key_self k j
    simp only [count, if_neg hke]
    rw [if_neg (show ¬k ∉ getModelsNames from fun hh => hh hk), hfeq]

/-- C5 witness: the count theorem applied to the concrete one-User store. -/
theorem claim5_count_witness :
    count sampleStore "" = none ∧ count sampleStore "Foo" = none ∧
    count sampleStore "User" = some 1 ∧ count sampleStore "Place" = some 0 := by
  have hwf : ∀ q ∈ sampleStore.objects, ∃ K j, K ∈ getModelsNames ∧ j ≠ "" ∧
      q.1 = K ++ "." ++ j := by
    intro q hq
    simp only [sampleStore, List.mem_singleton] at hq
    subst hq
    exact ⟨"User", "u1", by decide, by decide, by decide⟩
  have h := claim5_count sampleStore hwf
  refine ⟨h.1, h.2.1 "Foo" (by decide), ?_, ?_⟩
  · exact (h.2.2.1 "User" (by decide)).trans (by decide)
  · exact (h.2.2.1 "Place" (by decide)).trans (by decide)

/-- C6: the spec's `find` (class resolution through `get_model_class`, then
key lookup through `find_obj`) prints `** class doesn't exist **` for an
unknown kind and `** no instance found **` for a known kind with an absent
key, returning the entity otherwise; `find_all` on an unknown (nonempty)
kind returns the empty list silently — the find/listAll asymmetry. -/
theorem claim6_find_vs_find_all (st : StorageState) (m : String) (i : PyVal) :
    (m ∉ getModelsNames →
      findEntity st m i = (none, ["** class doesn't exist **"]) ∧
      (m ≠ "" → find_all st m = [])) ∧
    (m ∈ getModelsNames → pyTruthy i = true →
      lookupKey st.objects (m ++ "." ++ pyStrVal i) = none →
      findEntity st m i = (none, ["** no instance found **"])) ∧
    (∀ o, m ∈ getModelsNames → pyTruthy i = true →
      lookupKey st.objects (m ++ "." ++ pyStrVal i) = some (some o) →
      findEntity st m i = (some o, [])) := by
  refine ⟨fun hm => ⟨?_, fun hne => ?_⟩, fun hm hi ho => ?_, fun o hm hi ho => ?_⟩
  · simp [findEntity, get_model_class_unknown hm]
  · simp [find_all, hne, hm]
  · simp [findEntity, get_model_class_known hm, find_obj_notfound hm hi ho]
  · simp [findEntity, get_model_class_known hm, find_obj_found hm hi ho]

/-- C6 witness: the asymmetry on the concrete one-User store. -/
theorem claim6_find_vs_find_all_witness :
    findEntity sampleStore "Foo" (.vstr "x") = (none, ["** class doesn't exist **"]) ∧
    find_all sampleStore "Foo" = [] ∧
    findEntity sampleStore "User" (.vstr "zz") = (none, ["** no instance found **"]) ∧
    findEntity sampleStore "User" (.vstr "u1") = (some sampleUser, []) := by
  refine ⟨((claim6_find_vs_find_all sampleStore "Foo" (.vstr "x")).1 (by decide)).1,
    ((claim6_find_vs_find_all sampleStore "Foo" (.vstr "x")).1 (by decide)).2 (by decide),
    (claim6_find_vs_find_all sampleStore "User" (.vstr "zz")).2.1 (by decide)
      (by decide) (by decide),
    (claim6_find_vs_find_all sampleStore "User" (.vstr "u1")).2.2 sampleUser
      (by decide) (by decide) (by decide)⟩

/-- C7 counterexample: reloading a document whose single record has the
unknown discriminator "Foo" does not drop the record silently — its key
stays in the store (bound to a null entry) and `** class doesn't exist **`
is printed, contradicting "it appears nowhere in the resulting store and
produces no output". -/
theorem claim7_counterexample :
    (reload badStore).1.objects = [("Foo.1", none)] ∧
    (reload badStore).2 = ["** class doesn't exist **"] := by
  exact ⟨by decide, by decide⟩

/-- C7 (amended): a missing or malformed document leaves the store exactly
as it was (so an empty store stays empty) with no exception; for a
well-formed document every record is passed through `_deserialize` keeping
its key: a record whose discriminator is present but unknown is kept as a
null entry under its key and prints `** class doesn't exist **`, a record
with no (or falsy) discriminator is kept as a null entry silently, and
every other record is restored under its key. -/
theorem claim7_reload_keeps_keys (st : StorageState) :
    (st.file = none → reload st = (st, [])) ∧
    (∀ doc, st.file = some doc →
      (reload st).1.objects =
        doc.map (fun kd => (kd.1, (deserializeRecord kd.2).1)) ∧
      (reload st).2 = (doc.map (fun kd => (deserializeRecord kd.2).2)).flatten) ∧
    (∀ d c, lookupKey d "__class__" = some (.vstr c) → c ∉ getModelsNames →
      c ≠ "" → deserializeRecord (some d) = (none, ["** class doesn't exist **"])) ∧
    (∀ d, lookupKey d "__class__" = none →
      deserializeRecord (some d) = (none, [])) ∧
    (∀ d c, lookupKey d "__class__" = some (.vstr c) → c ∈ getModelsNames →
      deserializeRecord (some d) = (some (modelFromDict c d), [])) := by
  refine ⟨fun hf => by simp [reload, hf], fun doc hf => ⟨by simp [reload, hf], by simp [reload, hf]⟩,
    fun d c hc hcu hcne => ?_, fun d hc => ?_, fun d c hc hck => ?_⟩
  · simp [deserializeRecord, hc, truthy_vstr hcne, get_model_class_unknown hcu]
  · simp [deserializeRecord, hc, pyTruthy]
  · have hcne : c ≠ "" := names_ne_empty c hck
    simp [deserializeRecord, hc, truthy_vstr hcne, get_model_class_known hck]

/-- C7 witness: the amended reload behavior on concrete stores. -/
theorem claim7_reload_keeps_keys_witness :
    reload { objects := [], file := none } = ({ objects := [], file := none }, []) ∧
    (reload badStore).1.objects = [("Foo.1", (deserializeRecord (some [("__class__", .vstr "Foo")])).1)] ∧
    deserializeRecord (some [("__class__", .vstr "Foo")]) =
      (none, ["** class doesn't exist **"]) := by
  refine ⟨(claim7_reload_keeps_keys { objects := [], file := none }).1 rfl, ?_, ?_⟩
  · exact ((claim7_reload_keeps_keys badStore).2.1 badDoc rfl).1
  · exact (claim7_reload_keeps_keys badStore).2.2.1 [("__class__", .vstr "Foo")]
      "Foo" (by decide) (by decide) (by decide)

/-- C8: for a known kind and truthy id, `find_obj` on a never-created key
prints `** no instance found **`; `remove_obj` finds first, propagating the
failure and changing nothing, and on success deletes the key and flushes;
after a successful removal a subsequent find on the new state again prints
`** no instance found **`. -/
theorem claim8_remove_then_find (st : StorageState) (m : String) (i : PyVal)
    (hm : m ∈ getModelsNames) (hi : pyTruthy i = true) :
    (lookupKey st.objects (m ++ "." ++ pyStrVal i) = none →
      find_obj st m i = (none, ["** no instance found **"]) ∧
      remove_obj st m i = (none, st, ["** no instance found **"])) ∧
    (∀ o, lookupKey st.objects (m ++ "." ++ pyStrVal i) = some (some o) →
      allSome st.objects = true →
      ∃ st2, remove_obj st m i = (none, st2, []) ∧
        st2.objects = delEntry st.objects (m ++ "." ++ pyStrVal i) ∧
        (∃ doc, st2.file = some doc) ∧
        find_obj st2 m i = (none, ["** no instance found **"])) := by
  have hmne : m ≠ "" := names_ne_empty m hm
  refine ⟨fun ho => ⟨find_obj_notfound hm hi ho, ?_⟩, fun o ho hall => ?_⟩
  · simp [remove_obj, find_obj_notfound hm hi ho]
  · have hall' : allSome (delEntry st.objects (m ++ "." ++ pyStrVal i)) = true :=
      allSome_delEntry hall
    obtain ⟨doc, _, hsave⟩ := save_of_allSome
      { st with objects := delEntry st.objects (m ++ "." ++ pyStrVal i) } hall'
    refine ⟨{ objects := delEntry st.objects (m ++ "." ++ pyStrVal i), file := some doc }, ?_, rfl, ⟨doc, rfl⟩, ?_⟩
    · have hkey : getObjKey m i = some (m ++ "." ++ pyStrVal i) := by
        unfold getObjKey
        rw [if_neg]
        push_neg
        exact ⟨hmne, by simp [hi]⟩
      simp only [remove_obj, find_obj_found hm hi ho, hkey]
      rw [hsave]
    · exact find_obj_notfound hm hi (lookupKey_delEntry _ _)

/-- C8 witness: remove-then-find on the concrete one-User store. -/
theorem claim8_remove_then_find_witness :
    find_obj sampleStore "User" (.vstr "zz") = (none, ["** no instance found **"]) ∧
    remove_obj sampleStore "User" (.vstr "zz") =
      (none, sampleStore, ["** no instance found **"]) ∧
    ∃ st2, remove_obj sampleStore "User" (.vstr "u1") = (none, st2, []) ∧
      st2.objects = delEntry sampleStore.objects ("User" ++ "." ++ pyStrVal (.vstr "u1")) ∧
      (∃ doc, st2.file = some doc) ∧
      find_obj st2 "User" (.vstr "u1") = (none, ["** no instance found **"]) := by
  have h := claim8_remove_then_find sampleStore "User" (.vstr "u1") (by decide)
    (by decide)
  have h' := claim8_remove_then_find sampleStore "User" (.vstr "zz") (by decide)
    (by decide)
  exact ⟨(h'.1 (by decide)).1, (h'.1 (by decide)).2,
    h.2 sampleUser (by decide) (by decide)⟩

/-- C9: on a live entity with an existing non-underscore int field, a raw
string that parses as an int is coerced and stored as the int itself (the
field stays numeric), while a truthy raw value that is neither an int nor a
string is refused with the store contents unchanged (the unchanged store is
still flushed). -/
theorem claim9_typed_coercion (st : StorageState) (m : String) (i : PyVal)
    (a : String) (p : Int) (o : PyObject)
    (hm : m ∈ getModelsNames) (hi : pyTruthy i = true)
    (ho : lookupKey st.objects (m ++ "." ++ pyStrVal i) = some (some o))
    (ha : lookupKey o.attrs a = some (.vint p))
    (hu : pyStartswith a "_" = false) (hta : a ≠ "")
    (hall : allSome st.objects = true)
    (hnd : (st.objects.map Prod.fst).Nodup) :
    (∀ s n, pyParseInt s = some n → s ≠ "" →
      ∃ doc, update_obj_attribute st m i (.vstr a) (.vstr s) =
        (none, { withObj st (m ++ "." ++ pyStrVal i) (pySetattr o a (.vint n)) with file := some doc }, []) ∧
        lookupKey (pySetattr o a (.vint n)).attrs a = some (.vint n)) ∧
    (∀ v, pyIsinstance v .tstr = false → pyIsinstance v .tint = false →
      pyTruthy v = true →
      ∃ doc, update_obj_attribute st m i (.vstr a) v =
        (none, { st with file := some doc }, [])) := by
  constructor
  · intro s n hs hsne
    have hok := update_obj_attribute_ok (PyVal.vint n) hm hi ho ha hu rfl
      hta (truthy_vstr hsne) rfl (by simp [pyConvert, pyTypeOf, hs])
    have hall' : allSome (withObj st (m ++ "." ++ pyStrVal i)
        (pySetattr o a (.vint n))).objects = true := allSome_setEntry hall
    obtain ⟨doc, _, hsave⟩ := save_of_allSome _ hall'
    refine ⟨doc, ?_, lookupKey_setEntry_self _ _ _⟩
    rw [hok, hsave]
  · intro v hvs hvi hv
    have hiso : (pyIsinstance v .tstr || pyIsinstance v (pyTypeOf (PyVal.vint p))) = false := by
      simp [pyTypeOf, hvs, hvi]
    have href := update_obj_attribute_refused hm hi ho ha hu rfl hta hv hiso
    have hobj : (withObj st (m ++ "." ++ pyStrVal i) o).objects = st.objects := by
      simp only [withObj]
      exact setEntry_self hnd ho
    have hall' : allSome (withObj st (m ++ "." ++ pyStrVal i) o).objects = true := by
      rw [hobj]; exact hall
    obtain ⟨doc, _, hsave⟩ := save_of_allSome _ hall'
    refine ⟨doc, ?_⟩
    rw [href, hsave]
    have hst : (withObj st (m ++ "." ++ pyStrVal i) o) = st := by
      cases st with
      | mk objs f => simp only [withObj] at hobj ⊢; rw [hobj]
    rw [hst]

/-- C9 witness: the coercion theorem on the concrete one-User store
(a valid literal "22" and a refused datetime raw value). -/
theorem claim9_typed_coercion_witness :
    (∃ doc, update_obj_attribute sampleStore "User" (.vstr "u1") (.vstr "age")
      (.vstr "22") =
      (none, { withObj sampleStore ("User" ++ "." ++ pyStrVal (.vstr "u1")) (pySetattr sampleUser "age" (.vint 22)) with file := some doc }, []) ∧
      lookupKey (pySetattr sampleUser "age" (.vint 22)).attrs "age" =
        some (.vint 22)) ∧
    (∃ doc, update_obj_attribute sampleStore "User" (.vstr "u1") (.vstr "age")
      (.vdatetime "2030-01-01T00:00:00") =
      (none, { sampleStore with file := some doc }, [])) := by
  have h := claim9_typed_coercion sampleStore "User" (.vstr "u1") "age" 30
    sampleUser (by decide) (by decide) (by decide) (by decide) (by decide)
    (by decide) (by decide) (by decide)
  exact ⟨h.1 "22" 22 (by decide) (by decide),
    h.2 (.vdatetime "2030-01-01T00:00:00") (by decide) (by decide) (by decide)⟩

/-- C10: the registry treats every falsy attribute value (the empty string,
0, False — and a missing value, `None`) identically: `updateAttribute`
returns silently with no mutation and no flush (the state is exactly the
input state); consequently the dict-form update skips its falsy entries,
its error and resulting state being those of the update with the falsy
entries filtered out. -/
theorem claim10_falsy_value_skipped (st : StorageState) (m : String)
    (i : PyVal) :
    (∀ an av, pyTruthy av = false →
      update_obj_attribute st m i an av = (none, st, (find_obj st m i).2)) ∧
    (∀ kwargs : List (String × PyVal),
      (update_obj_attributes st m i kwargs).1 =
        (update_obj_attributes st m i (kwargs.filter (fun kv => pyTruthy kv.2))).1 ∧
      (update_obj_attributes st m i kwargs).2.1 =
        (update_obj_attributes st m i (kwargs.filter (fun kv => pyTruthy kv.2))).2.1) := by
  refine ⟨fun an av hv => update_obj_attribute_falsy hv, fun kwargs => ?_⟩
  induction kwargs generalizing st with
  | nil => exact ⟨rfl, rfl⟩
  | cons kv rest ih =>
    obtain ⟨k, v⟩ := kv
    by_cases hv : pyTruthy v = true
    · simp only [List.filter_cons, hv, if_pos, update_obj_attributes]
      rcases hh : update_obj_attribute st m i (.vstr k) v with ⟨e, st', out⟩
      cases e with
      | some e0 => exact ⟨rfl, rfl⟩
      | none => exact ⟨(ih st').1, (ih st').2⟩
    · have hv' : pyTruthy v = false := by
        cases hb : pyTruthy v with
        | false => rfl
        | true => exact absurd hb hv
      have hskip : update_obj_attribute st m i (.vstr k) v =
          (none, st, (find_obj st m i).2) := update_obj_attribute_falsy hv'
      simp only [List.filter_cons, hv', Bool.false_eq_true, if_neg,
        update_obj_attributes, hskip]
      exact ⟨(ih st).1, (ih st).2⟩

/-- C10 witness: falsy values (0, False, "", None) are skipped, and the
dict update applying 0 to `age` and "x" to `name` yields the state of the
update with the `age` entry dropped. -/
theorem claim10_falsy_value_skipped_witness :
    update_obj_attribute sampleStore "User" (.vstr "u1") (.vstr "age") (.vint 0)
      = (none, sampleStore, []) ∧
    update_obj_attribute sampleStore "User" (.vstr "u1") (.vstr "flag")
      (.vbool false) = (none, sampleStore, []) ∧
    update_obj_attribute sampleStore "User" (.vstr "u1") (.vstr "name")
      (.vstr "") = (none, sampleStore, []) ∧
    (update_obj_attributes sampleStore "User" (.vstr "u1")
        [("age", .vint 0), ("name", .vstr "x")]).2.1 =
      (update_obj_attributes sampleStore "User" (.vstr "u1")
        [("name", .vstr "x")]).2.1 := by
  have h := claim10_falsy_value_skipped sampleStore "User" (.vstr "u1")
  refine ⟨?_, ?_, ?_, ?_⟩
  · exact (h.1 (.vstr "age") (.vint 0) (by decide)).trans (by decide)
  · exact (h.1 (.vstr "flag") (.vbool false) (by decide)).trans (by decide)
  · exact (h.1 (.vstr "name") (.vstr "") (by decide)).trans (by decide)
  · exact ((h.2 [("age", .vint 0), ("name", .vstr "x")]).2).trans (by decide)

end AirBnBClone
